import Mathlib

/-!
Verification of the cc-director job scheduling subsystem.

Shallow embedding of the modules under `src/scheduler/cc_director/`:

* `cron.py`        — cron validation, next-trigger computation, description
* `executor.py`    — child-process execution with timeout handling
* `database.py`    — job table queries (in particular `get_due_jobs`)
* `service.py`     — scheduler loop, `run_job`, the running-jobs guard
* `scheduler.py`   — CLI management surface (in particular `trigger`)
* `gateway/routes/jobs.py` — REST trigger route

Machine timestamps are modelled as natural numbers (minutes since the Unix
epoch) for schedule computations and as rationals (seconds) for wall-clock
durations.  Fallible operations return `Option` or a tagged response type.
-/

namespace CCDirector

/- ------------------------------------------------------------------
Cron evaluator (`cron.py`).  The module delegates expression parsing and
stepping to the external `croniter` library; that library is embedded here
from its documented semantics: a 5-field expression (minute, hour,
day-of-month, month, day-of-week) is expanded into the set of admissible
values per field, `get_next` steps forward one minute at a time starting
strictly after the base instant and returns the first matching minute, and
out-of-range field values raise (modelled as parse failure).
------------------------------------------------------------------- -/

/-- Civil date (year, month, day) from a count of days since 1970-01-01,
following the standard days-from-civil inverse algorithm.  Used to evaluate
the day-of-month and month fields of a cron expression. -/
def civilFromDays (z : ℕ) : ℕ × ℕ × ℕ :=
  let z' := z + 719468
  let era := z' / 146097
  let doe := z' % 146097
  let yoe := (doe - doe / 1460 + doe / 36524 - doe / 146096) / 365
  let y := yoe + era * 400
  let doy := doe - (365 * yoe + yoe / 4 - yoe / 100)
  let mp := (5 * doy + 2) / 153
  let d := doy - (153 * mp + 2) / 5 + 1
  let m := if mp < 10 then mp + 3 else mp - 9
  (if m ≤ 2 then y + 1 else y, m, d)

/-- Split a character list at every occurrence of `sep`, keeping empty
pieces (the behaviour of the Python `str.split(sep)` with an explicit
separator). -/
def splitCharAux (sep : Char) : List Char → List Char → List (List Char)
  | [], cur => [cur.reverse]
  | c :: cs, cur =>
      if c = sep then cur.reverse :: splitCharAux sep cs []
      else splitCharAux sep cs (c :: cur)

/-- Split a string at every occurrence of the character `sep`, keeping
empty pieces. -/
def splitChar (sep : Char) (s : String) : List String :=
  (splitCharAux sep s.data []).map String.mk

/-- Split a character list on runs of whitespace, dropping empty pieces
(the behaviour of the no-argument Python `str.split()`). -/
def wordsAux : List Char → List Char → List (List Char)
  | [], cur => if cur.isEmpty then [] else [cur.reverse]
  | c :: cs, cur =>
      if c.isWhitespace then
        if cur.isEmpty then wordsAux cs [] else cur.reverse :: wordsAux cs []
      else wordsAux cs (c :: cur)

/-- Split a string on runs of whitespace, dropping empty pieces. -/
def splitWS (s : String) : List String :=
  (wordsAux s.data []).map String.mk

/-- Parse a non-empty all-digit string as a natural number (the accepting
cases of Python `int(s)` for the field atoms croniter sees). -/
def digitsToNat : List Char → ℕ → Option ℕ
  | [], acc => some acc
  | c :: cs, acc =>
      if c.isDigit then digitsToNat cs (acc * 10 + (c.toNat - '0'.toNat))
      else none

/-- Parse a decimal numeral string; none when empty or not all digits. -/
def toNatStrict (s : String) : Option ℕ :=
  match s.data with
  | [] => none
  | cs => digitsToNat cs 0

/-- One expanded cron field: the admissible values, plus whether the field
was written as a bare `*` (needed for the day-of-month / day-of-week
disjunction rule). -/
structure CronField where
  values : List ℕ
  isStar : Bool
deriving DecidableEq

/-- A parsed 5-field cron expression. -/
structure CronExpr where
  minute : CronField
  hour : CronField
  dom : CronField
  month : CronField
  dow : CronField
deriving DecidableEq

/-- The arithmetic progression lo, lo+step, ... bounded by hi (inclusive). -/
def rangeList (lo hi step : ℕ) : List ℕ :=
  List.range' lo ((hi - lo) / step + 1) step

/-- Parse one comma-separated atom of a cron field: `*`, `n`, `a-b`,
optionally followed by `/step`.  Values outside [lo, hi] are rejected, as
croniter raises on them. -/
def parseAtom (s : String) (lo hi : ℕ) : Option (List ℕ) :=
  let withStep : String → ℕ → Option (List ℕ) := fun body step =>
    if body = "*" then
      some (rangeList lo hi step)
    else
      match splitChar '-' body with
      | [a] =>
          match toNatStrict a with
          | some v => if lo ≤ v ∧ v ≤ hi ∧ step = 1 then some [v] else none
          | none => none
      | [a, b] =>
          match toNatStrict a, toNatStrict b with
          | some va, some vb =>
              if lo ≤ va ∧ va ≤ vb ∧ vb ≤ hi then some (rangeList va vb step) else none
          | _, _ => none
      | _ => none
  match splitChar '/' s with
  | [body] => withStep body 1
  | [body, stepStr] =>
      match toNatStrict stepStr with
      | some st => if st = 0 then none else withStep body st
      | none => none
  | _ => none

/-- Parse a whole cron field (a comma-separated list of atoms). -/
def parseField (s : String) (lo hi : ℕ) : Option CronField :=
  match (splitChar ',' s).mapM (fun part => parseAtom part lo hi) with
  | some ls => some { values := ls.flatten, isStar := s = "*" }
  | none => none

/-- Parse a 5-field cron expression.  Field ranges follow croniter:
minute 0-59, hour 0-23, day-of-month 1-31, month 1-12, day-of-week 0-7
with 7 normalised to Sunday = 0. -/
def parseCron (s : String) : Option CronExpr := do
  match splitWS s with
  | [mi, h, d, mo, w] =>
      let fmi ← parseField mi 0 59
      let fh ← parseField h 0 23
      let fd ← parseField d 1 31
      let fmo ← parseField mo 1 12
      let fw ← parseField w 0 7
      some { minute := fmi, hour := fh, dom := fd, month := fmo,
             dow := { values := fw.values.map (fun v => if v = 7 then 0 else v),
                      isStar := fw.isStar } }
  | _ => none

/-- Whether minute-instant `t` (minutes since the epoch) satisfies the cron
expression.  When both the day-of-month and the day-of-week field are
restricted (neither is `*`), a match on either suffices (cron OR rule);
otherwise both must match. -/
def cronMatches (c : CronExpr) (t : ℕ) : Bool :=
  let mi := t % 60
  let h := t / 60 % 24
  let days := t / 1440
  let ymd := civilFromDays days
  let dow := (days + 4) % 7
  let minuteOk := c.minute.values.contains mi
  let hourOk := c.hour.values.contains h
  let monthOk := c.month.values.contains ymd.2.1
  let domOk := c.dom.values.contains ymd.2.2
  let dowOk := c.dow.values.contains dow
  let dayOk := if c.dom.isStar || c.dow.isStar then domOk && dowOk else domOk || dowOk
  minuteOk && hourOk && dayOk && monthOk

/-- Fuel-bounded forward search for the first matching minute at or after
`t`, one minute at a time (the croniter stepping loop). -/
def nextRunSearch (c : CronExpr) : ℕ → ℕ → Option ℕ
  | 0, _ => none
  | fuel + 1, t => if cronMatches c t then some t else nextRunSearch c fuel (t + 1)

/-- `cron.py` `calculate_next_run`: the next trigger time of a cron
expression strictly after the base instant `fromMinute`.  The search starts
at `fromMinute + 1`, since croniter `get_next` never returns the base
instant itself. -/
def calculate_next_run (c : CronExpr) (fuel fromMinute : ℕ) : Option ℕ :=
  nextRunSearch c fuel (fromMinute + 1)

/-- `cron.py` `validate_cron`: true exactly when the expression parses. -/
def validate_cron (s : String) : Bool :=
  (parseCron s).isSome

/-- Python `str.zfill(2)`: left-pad with zeros to width 2. -/
def zfill2 (s : String) : String :=
  if s.data.length < 2 then String.mk (List.replicate (2 - s.data.length) '0') ++ s
  else s

/-- The Python test checking that the minute field starts with a star
followed by a slash (the step-pattern check of `describe_cron`). -/
def startsStarSlash (s : String) : Bool :=
  match s.data with
  | '*' :: '/' :: _ => true
  | _ => false

/-- `cron.py` `describe_cron`: a best-effort human-readable description.
Splits the expression on whitespace; anything other than exactly 5 fields
yields the sentinel, then a fixed sequence of pattern checks, falling back
to the raw expression string. -/
def describe_cron (expression : String) : String :=
  match splitWS expression with
  | [minute, hour, day, month, weekday] =>
      if expression = "* * * * *" then "Every minute"
      else if startsStarSlash minute then
        "Every " ++ String.mk (minute.data.drop 2) ++ " minutes"
      else if hour = "*" ∧ minute ≠ "*" then
        "Every hour at minute " ++ minute
      else if weekday = "1-5" ∧ hour ≠ "*" ∧ minute ≠ "*" then
        "Weekdays at " ++ hour ++ ":" ++ zfill2 minute
      else if weekday = "*" ∧ day = "*" ∧ month = "*" then
        "Daily at " ++ hour ++ ":" ++ zfill2 minute
      else expression
  | _ => "Invalid expression"

/- ------------------------------------------------------------------
Process executor (`executor.py`).  `execute_job` spawns the command via
`subprocess.Popen`, waits for it with `communicate(timeout)`, and on
`TimeoutExpired` kills the process and attempts a bounded output drain.
The child process and the wall clock are modelled by explicit parameters:
`ProcBehavior` gives the spawn outcome (spawn failure, or a run of a given
wall-clock length with a given exit code and output), and `KillTiming`
gives the time spent in `_kill_process` and the outcome of the 5-second
drain `communicate` after the kill.
------------------------------------------------------------------- -/

/-- Result record of one execution (`executor.py` `RunResult`).  Times are
rationals (seconds), so sub-second precision is preserved. -/
structure RunResult where
  exit_code : Option ℤ
  stdout : String
  stderr : String
  duration_seconds : ℚ
  timed_out : Bool
  started_at : ℚ
  ended_at : ℚ
deriving DecidableEq

/-- `executor.py` line 52: the command string goes through the platform
shell only on Windows. -/
def use_shell (platform : String) : Bool :=
  platform == "win32"

/-- The arguments `execute_job` passes to `subprocess.Popen`
(`executor.py` lines 54-62): the raw command string, the shell flag, and
the working directory. -/
structure SpawnConfig where
  args : String
  shell : Bool
  cwd : Option String
deriving DecidableEq

/-- The `Popen` call configuration built by `execute_job`. -/
def spawnConfig (command : String) (working_dir : Option String)
    (platform : String) : SpawnConfig :=
  { args := command, shell := use_shell platform, cwd := working_dir }

/-- The three spawn-failure exceptions `execute_job` handles. -/
inductive SpawnErrorKind
  | notFound
  | permission
  | osError
deriving DecidableEq

/-- Sentinel exit codes of the spawn-failure handlers
(`executor.py` lines 78-86). -/
def spawnErrorExit : SpawnErrorKind → ℤ
  | .notFound => 127
  | .permission => 126
  | .osError => 1

/-- Stderr text of the spawn-failure handlers. -/
def spawnErrorMsg : SpawnErrorKind → String → String
  | .notFound, m => "Command not found: " ++ m
  | .permission, m => "Permission denied: " ++ m
  | .osError, m => "OS error: " ++ m

/-- Behaviour of the spawned child process: a spawn failure (with the time
the failed attempt took), or a process that would run for `runtime` seconds
and exit with `code` after writing `out` and `err`. -/
inductive ProcBehavior
  | spawnError (kind : SpawnErrorKind) (msg : String) (failTime : ℚ)
  | runs (runtime : ℚ) (code : ℤ) (out err : String)
deriving DecidableEq

/-- Timing of the timeout path: `termWait` is the wall-clock time spent in
`_kill_process`, and `drained` is the outcome of the follow-up
`communicate(timeout=5)`: `some (out, err, dt)` when it returns output after
`dt` seconds, `none` when it times out after the full 5 seconds. -/
structure KillTiming where
  termWait : ℚ
  drained : Option (String × String × ℚ)
deriving DecidableEq

/-- `executor.py` `execute_job`: run a command with a timeout and classify
the outcome.  `clock` is the wall-clock instant at entry (`started_at`).
`duration_seconds` is always `ended_at - started_at`. -/
def execute_job (timeout_seconds : ℚ) (clock : ℚ) (proc : ProcBehavior)
    (kill : KillTiming) : RunResult :=
  let started_at := clock
  let outcome : Option ℤ × String × String × Bool × ℚ :=
    match proc with
    | .spawnError kind msg ft =>
        (some (spawnErrorExit kind), "", spawnErrorMsg kind msg, false, clock + ft)
    | .runs runtime code out err =>
        if runtime ≤ timeout_seconds then
          (some code, out, err, false, clock + runtime)
        else
          let afterKill := clock + timeout_seconds + kill.termWait
          match kill.drained with
          | some (out2, err2, dt) => (none, out2, err2, true, afterKill + dt)
          | none => (none, "", "Process killed due to timeout", true, afterKill + 5)
  { exit_code := outcome.1
    stdout := outcome.2.1
    stderr := outcome.2.2.1
    timed_out := outcome.2.2.2.1
    started_at := started_at
    ended_at := outcome.2.2.2.2
    duration_seconds := outcome.2.2.2.2 - started_at }

/- ------------------------------------------------------------------
Schedule store (`database.py`).  The `jobs` table is modelled as a list of
`Job` rows; timestamps are naturals.  `get_due_jobs` translates the SQL
query `WHERE enabled = 1 AND next_run IS NOT NULL AND next_run <= now
ORDER BY next_run` as a filter followed by a stable ascending sort on
`next_run`.
------------------------------------------------------------------- -/

/-- One row of the `jobs` table (`database.py` `Job`). -/
structure Job where
  id : ℕ
  name : String
  cron : String
  command : String
  working_dir : Option String
  enabled : Bool
  timeout_seconds : ℕ
  tags : Option String
  created_at : Option ℕ
  updated_at : Option ℕ
  next_run : Option ℕ
deriving DecidableEq

/-- The WHERE clause of `get_due_jobs`:
`enabled = 1 AND next_run IS NOT NULL AND next_run <= now`. -/
def isDue (now : ℕ) (j : Job) : Bool :=
  j.enabled &&
    match j.next_run with
    | none => false
    | some t => decide (t ≤ now)

/-- Sort key of the `ORDER BY next_run` clause (nulls are excluded by the
filter, so the default has no effect on the result). -/
def nextRunKey (j : Job) : ℕ :=
  j.next_run.getD 0

/-- Row order used by `ORDER BY next_run` (ascending). -/
def dueLe (a b : Job) : Prop :=
  nextRunKey a ≤ nextRunKey b

instance : DecidableRel dueLe :=
  fun a b => Nat.decLe (nextRunKey a) (nextRunKey b)

instance : IsTotal Job dueLe :=
  ⟨fun a b => Nat.le_total (nextRunKey a) (nextRunKey b)⟩

instance : IsTrans Job dueLe :=
  ⟨fun _ _ _ hab hbc => Nat.le_trans hab hbc⟩

/-- `database.py` `get_due_jobs`: the enabled jobs whose `next_run` is set
and not after `now`, in ascending `next_run` order. -/
def get_due_jobs (table : List Job) (now : ℕ) : List Job :=
  List.insertionSort dueLe (table.filter (isDue now))

/- ------------------------------------------------------------------
Concurrency guard and job execution (`service.py`).  The guard is the
module-level set `_running_jobs` under `_running_jobs_lock`; the
admission check-and-insert is the critical section at lines 185-189 of
`run_job`, the release is the `finally` block at lines 248-250.
------------------------------------------------------------------- -/

/-- The admission critical section of `run_job` (`service.py` 185-189):
atomically check absence and insert.  Returns whether the job was admitted
together with the updated running set. -/
def tryAdmit (running : Finset ℕ) (jobId : ℕ) : Bool × Finset ℕ :=
  if jobId ∈ running then (false, running) else (true, insert jobId running)

/-- The release critical section of `run_job` (`service.py` 248-250):
`set.discard`, removing the id unconditionally. -/
def release (running : Finset ℕ) (jobId : ℕ) : Finset ℕ :=
  running.erase jobId

/-- One row of the `runs` table (`database.py` `Run`), without the
surrogate id (assigned by the store on insert). -/
structure RunRecord where
  job_id : ℕ
  job_name : String
  started_at : ℚ
  ended_at : Option ℚ
  exit_code : Option ℤ
  stdout : Option String
  stderr : Option String
  timed_out : Bool
  duration_seconds : Option ℚ
deriving DecidableEq

/-- Observable effects of the service and CLI code paths, in program
order: inserting a run row, spawning the child process, updating a run
row, and updating the `next_run` column of a job. -/
inductive DbEvent
  | createRun (r : RunRecord)
  | executeCommand (command : String)
  | updateRun (r : RunRecord)
  | updateNextRun (jobId : ℕ) (ts : ℕ)
deriving DecidableEq

/-- Whether an event is the child-process spawn. -/
def DbEvent.isExecute : DbEvent → Bool
  | .executeCommand _ => true
  | _ => false

/-- Whether an event writes the `next_run` column. -/
def DbEvent.isUpdateNextRun : DbEvent → Bool
  | .updateNextRun _ _ => true
  | _ => false

/-- Whether every `executeCommand` event in the trace is preceded by the
insertion of a run row whose `ended_at` is null.  `seenOpen` records
whether such an insertion has already occurred. -/
def spawnsAfterOpenCreate (seenOpen : Bool) : List DbEvent → Bool
  | [] => true
  | DbEvent.executeCommand _ :: rest => seenOpen && spawnsAfterOpenCreate seenOpen rest
  | DbEvent.createRun r :: rest =>
      spawnsAfterOpenCreate (seenOpen || r.ended_at.isNone) rest
  | _ :: rest => spawnsAfterOpenCreate seenOpen rest

/-- The open run row `run_job` inserts before calling the executor
(`service.py` 194-207): `started_at` is the current clock, every
completion field is null. -/
def openRun (job : Job) (clock : ℚ) : RunRecord :=
  { job_id := job.id, job_name := job.name, started_at := clock,
    ended_at := none, exit_code := none, stdout := none, stderr := none,
    timed_out := false, duration_seconds := none }

/-- The completed state of a run row after `run_job` copies the executor
result into it (`service.py` 217-224). -/
def finishedRun (job : Job) (clock : ℚ) (result : RunResult) : RunRecord :=
  { openRun job clock with
    ended_at := some result.ended_at
    exit_code := result.exit_code
    stdout := some result.stdout
    stderr := some result.stderr
    timed_out := result.timed_out
    duration_seconds := some result.duration_seconds }

/-- `service.py` `run_job`: admission through the running-jobs set, then
(if admitted) insert an open run row, spawn, update the row with the
result, advance `next_run`, and release the set entry in the `finally`
block.  `result` is the executor outcome and `nextRun` the value
`calculate_next_run(job.cron)` computed from the completion instant.
Returns the final running set and the emitted effect trace. -/
def run_job (running : Finset ℕ) (job : Job) (clock : ℚ) (result : RunResult)
    (nextRun : ℕ) : Finset ℕ × List DbEvent :=
  let adm := tryAdmit running job.id
  if adm.1 = false then
    (running, [])
  else
    (release adm.2 job.id,
     [DbEvent.createRun (openRun job clock),
      DbEvent.executeCommand job.command,
      DbEvent.updateRun (finishedRun job clock result),
      DbEvent.updateNextRun job.id nextRun])

/- ------------------------------------------------------------------
Scheduler loop (`service.py` `run_scheduler`, lines 381-397).  Each poll
cycle calls `get_due_jobs` and submits every returned job.  The cycles are
modelled as a script of outcomes: either the query returns a job list or
it raises.  There is no per-cycle exception handler; the `try` around the
loop catches only `KeyboardInterrupt`, so a raising cycle leaves the
`while` loop and falls through to the shutdown code in `finally`.
------------------------------------------------------------------- -/

/-- Outcome of one poll cycle of the scheduler loop. -/
inductive PollOutcome
  | ok (dueJobs : List Job)
  | raises
deriving DecidableEq

/-- Whether the cycle completed without raising. -/
def PollOutcome.isOk : PollOutcome → Bool
  | .ok _ => true
  | .raises => false

/-- The jobs a cycle returned (empty for a raising cycle). -/
def PollOutcome.jobs : PollOutcome → List Job
  | .ok js => js
  | .raises => []

/-- The polling `while` loop of `run_scheduler`: dispatch the jobs of each
successful cycle in order; a raising cycle terminates the loop at once
(no handler catches it), leaving later cycles unprocessed.  Returns the
dispatched jobs and whether the loop ended by an escaping exception. -/
def run_scheduler_loop : List PollOutcome → List Job × Bool
  | [] => ([], false)
  | PollOutcome.ok jobs :: rest =>
      let r := run_scheduler_loop rest
      (jobs ++ r.1, r.2)
  | PollOutcome.raises :: _ => ([], true)

/- ------------------------------------------------------------------
Management surface triggers.  `scheduler.py` `trigger` (lines 408-464)
looks the job up by name, runs `execute_job` directly in the CLI process,
and then inserts one already-completed run row; it never touches
`next_run` and never consults the running-jobs set of the service
process.  The REST route `gateway/routes/jobs.py` `trigger_job` (lines
214-237) instead writes `next_run = now` and spawns nothing.
------------------------------------------------------------------- -/

/-- The completed run row the CLI trigger inserts after execution
(`scheduler.py` 432-445): every field copied from the executor result,
`ended_at` set. -/
def triggerRunRecord (job : Job) (result : RunResult) : RunRecord :=
  { job_id := job.id, job_name := job.name, started_at := result.started_at,
    ended_at := some result.ended_at, exit_code := result.exit_code,
    stdout := some result.stdout, stderr := some result.stderr,
    timed_out := result.timed_out, duration_seconds := some result.duration_seconds }

/-- `scheduler.py` `trigger`: none when the job name is unknown (the CLI
exits with an error); otherwise the unchanged running set together with
the trace: spawn first, then insert the completed run row.  `result` is
the outcome of the direct `execute_job` call. -/
def trigger (jobs : List Job) (running : Finset ℕ) (name : String)
    (result : RunResult) : Option (Finset ℕ × List DbEvent) :=
  match jobs.find? (fun j => j.name == name) with
  | none => none
  | some job =>
      some (running,
        [DbEvent.executeCommand job.command,
         DbEvent.createRun (triggerRunRecord job result)])

/-- Response of the REST trigger route. -/
inductive TriggerResponse
  | notFound
  | disabled
  | ok (events : List DbEvent)
deriving DecidableEq

/-- `gateway/routes/jobs.py` `trigger_job`: 404 when the name is unknown,
400 when the job is disabled, otherwise a single `next_run := now` write
and no execution. -/
def trigger_job_route (jobs : List Job) (name : String) (now : ℕ) :
    TriggerResponse :=
  match jobs.find? (fun j => j.name == name) with
  | none => TriggerResponse.notFound
  | some job =>
      if job.enabled = false then TriggerResponse.disabled
      else TriggerResponse.ok [DbEvent.updateNextRun job.id now]

/- ------------------------------------------------------------------
Concrete fixtures used by witnesses and counterexamples.
------------------------------------------------------------------- -/

/-- A concrete enabled job (the nightly-report example of the spec). -/
def sampleJob : Job :=
  { id := 1, name := "nightly-report", cron := "0 2 * * *", command := "echo hi",
    working_dir := none, enabled := true, timeout_seconds := 300, tags := none,
    created_at := none, updated_at := none, next_run := some 100 }

/-- A concrete disabled job whose `next_run` is long past. -/
def disabledJob : Job :=
  { id := 2, name := "old-cleanup", cron := "0 3 * * *", command := "echo bye",
    working_dir := none, enabled := false, timeout_seconds := 60, tags := none,
    created_at := none, updated_at := none, next_run := some 10 }

/-- A concrete successful executor outcome. -/
def sampleResult : RunResult :=
  { exit_code := some 0, stdout := "hi", stderr := "", duration_seconds := 1,
    timed_out := false, started_at := 0, ended_at := 1 }

/-- The expansion `parseCron` produces for the every-minute expression. -/
def everyMinuteCron : CronExpr :=
  { minute := ⟨List.range' 0 60 1, true⟩,
    hour := ⟨List.range' 0 24 1, true⟩,
    dom := ⟨List.range' 1 31 1, true⟩,
    month := ⟨List.range' 1 12 1, true⟩,
    dow := ⟨(List.range' 0 8 1).map (fun v => if v = 7 then 0 else v), true⟩ }

/- ------------------------------------------------------------------
Theorems.
------------------------------------------------------------------- -/

/-- The forward search never returns an instant before its start point. -/
theorem nextRunSearch_le (c : CronExpr) (fuel : ℕ) :
    ∀ t t', nextRunSearch c fuel t = some t' → t ≤ t' := by
  induction fuel with
  | zero =>
      intro t t' h
      simp [nextRunSearch] at h
  | succ n ih =>
      intro t t' h
      rw [nextRunSearch] at h
      by_cases hm : cronMatches c t
      · simp [hm] at h
        omega
      · have := ih (t + 1) t' (by simpa [hm] using h)
        omega

/-- C5: for every valid cron expression and every base instant, the next
trigger computed by `calculate_next_run` is strictly after the base
instant — never equal to it and never in the past. -/
theorem c5_next_run_strictly_after (s : String) (c : CronExpr)
    (fuel fromMinute t' : ℕ)
    (hvalid : parseCron s = some c)
    (hnext : calculate_next_run c fuel fromMinute = some t') :
    fromMinute < t' := by
  have := nextRunSearch_le c fuel (fromMinute + 1) t' hnext
  omega

/-- Witness for C5: the every-minute expression, evaluated at minute 5,
yields minute 6, strictly later. -/
theorem c5_next_run_strictly_after_witness :
    parseCron "* * * * *" = some everyMinuteCron ∧
    calculate_next_run everyMinuteCron 5 5 = some 6 ∧ 5 < 6 :=
  ⟨by decide, by decide,
   c5_next_run_strictly_after "* * * * *" everyMinuteCron 5 5 6 (by decide)
     (by decide)⟩

/-- Counterexample for C9: the expression `61 25 32 13 8` has five fields
that are all out of range, so it is malformed (`validate_cron` rejects
it), yet `describe_cron` returns the raw expression, not the sentinel
`Invalid expression`. -/
theorem c9_out_of_range_counterexample :
    validate_cron "61 25 32 13 8" = false ∧
    describe_cron "61 25 32 13 8" = "61 25 32 13 8" ∧
    ("61 25 32 13 8" : String) ≠ "Invalid expression" :=
  ⟨by decide, by decide, by decide⟩

/-- C9 (amended): `describe_cron` returns the sentinel only on a wrong
field count; a 5-field expression matching none of the recognised
patterns — including one with out-of-range values — is returned raw. -/
theorem c9_describe_fallbacks :
    (∀ expr : String, (splitWS expr).length ≠ 5 →
        describe_cron expr = "Invalid expression") ∧
    (∀ (expr m h d mo w : String), splitWS expr = [m, h, d, mo, w] →
        expr ≠ "* * * * *" → startsStarSlash m = false →
        ¬(h = "*" ∧ m ≠ "*") → ¬(w = "1-5" ∧ h ≠ "*" ∧ m ≠ "*") →
        ¬(w = "*" ∧ d = "*" ∧ mo = "*") →
        describe_cron expr = expr) := by
  constructor
  · intro expr hlen
    rw [describe_cron]
    rcases hsp : splitWS expr with _ | ⟨m, _ | ⟨h, _ | ⟨d, _ | ⟨mo, _ | ⟨w, _ | ⟨x, rest⟩⟩⟩⟩⟩⟩ <;>
      simp only []
    exact absurd (by rw [hsp]; rfl) hlen
  · intro expr m h d mo w hsp hne hss h3 h4 h5
    rw [describe_cron, hsp]
    dsimp only
    rw [if_neg hne, if_neg (by simp [hss]), if_neg h3, if_neg h4, if_neg h5]

/-- Witness for C9 (amended): a 3-field expression yields the sentinel
and a 5-field unrecognised expression is returned raw. -/
theorem c9_describe_fallbacks_witness :
    ((splitWS "* * *").length ≠ 5 ∧
      describe_cron "* * *" = "Invalid expression") ∧
    (splitWS "5 4 3 2 1" = ["5", "4", "3", "2", "1"] ∧
      describe_cron "5 4 3 2 1" = "5 4 3 2 1") :=
  ⟨⟨by decide, c9_describe_fallbacks.1 "* * *" (by decide)⟩,
   ⟨by decide,
    c9_describe_fallbacks.2 "5 4 3 2 1" "5" "4" "3" "2" "1" (by decide)
      (by decide) (by decide) (by decide) (by decide) (by decide)⟩⟩

/-- Counterexample for C2: on a non-Windows platform the executor passes
the command to `Popen` with the shell flag off, so pipes and shell
builtins in the command string are not interpreted by a shell there;
the flag is on only for `win32`. -/
theorem c2_shell_counterexample :
    (spawnConfig "echo hi | grep h" none "linux").shell = false ∧
    (spawnConfig "echo hi | grep h" none "win32").shell = true :=
  ⟨by decide, by decide⟩

/-- C2 (amended): the executor runs the command through the host shell
exactly when the platform is Windows (`sys.platform == "win32"`); on every
other platform the command string is spawned with the shell flag off. -/
theorem c2_shell_only_on_windows (command : String) (working_dir : Option String)
    (platform : String) :
    (spawnConfig command working_dir platform).shell = true ↔ platform = "win32" := by
  simp [spawnConfig, use_shell]

/-- Witness for C2 (amended), instantiated on Windows. -/
theorem c2_shell_only_on_windows_witness :
    (spawnConfig "echo hi" none "win32").shell = true ↔ "win32" = "win32" :=
  c2_shell_only_on_windows "echo hi" none "win32"

/-- Counterexample for C1: triggering the sample job through the CLI
`trigger` command spawns the command itself (an `executeCommand` event is
emitted) and never writes `next_run` (no `updateNextRun` event), contrary
to the claim. -/
theorem c1_trigger_counterexample :
    (trigger [sampleJob] ∅ "nightly-report" sampleResult).map
        (fun p => (p.2.any DbEvent.isUpdateNextRun, p.2.any DbEvent.isExecute)) =
      some (false, true) := by
  decide

/-- C1 (amended): the REST trigger route sets `next_run` to now and does
not execute the command; the CLI `trigger` command instead executes the
command directly in the calling process — bypassing the Scheduler Loop —
and records a completed run without touching `next_run`. -/
theorem c1_trigger_semantics (jobs : List Job) (running : Finset ℕ)
    (name : String) (now : ℕ) (result : RunResult) (job : Job)
    (hfind : jobs.find? (fun j => j.name == name) = some job)
    (hen : job.enabled = true) :
    trigger_job_route jobs name now =
      TriggerResponse.ok [DbEvent.updateNextRun job.id now] ∧
    trigger jobs running name result =
      some (running, [DbEvent.executeCommand job.command,
                      DbEvent.createRun (triggerRunRecord job result)]) := by
  constructor
  · rw [trigger_job_route, hfind]
    simp [hen]
  · rw [trigger, hfind]

/-- Witness for C1 (amended) on the sample job. -/
theorem c1_trigger_semantics_witness :
    [sampleJob].find? (fun j => j.name == "nightly-report") = some sampleJob ∧
    sampleJob.enabled = true ∧
    (trigger_job_route [sampleJob] "nightly-report" 50 =
        TriggerResponse.ok [DbEvent.updateNextRun sampleJob.id 50] ∧
      trigger [sampleJob] ∅ "nightly-report" sampleResult =
        some (∅, [DbEvent.executeCommand sampleJob.command,
                  DbEvent.createRun (triggerRunRecord sampleJob sampleResult)])) :=
  ⟨by decide, by decide,
   c1_trigger_semantics [sampleJob] ∅ "nightly-report" 50 sampleResult sampleJob
     (by decide) (by decide)⟩

/-- Counterexample for C3: the CLI trigger execution trace spawns the
child process without any prior insertion of a run row with null
`ended_at` (the single run row it inserts afterwards is already
completed). -/
theorem c3_trigger_counterexample :
    (trigger [sampleJob] ∅ "nightly-report" sampleResult).map
        (fun p => spawnsAfterOpenCreate false p.2) = some false := by
  decide

/-- C3 (amended): scheduled dispatch (`run_job`) inserts a Run with
`ended_at` null before the child process is spawned; the CLI manual
trigger instead spawns first and inserts a single already-completed Run
afterwards. -/
theorem c3_open_run_before_spawn (running : Finset ℕ) (job : Job) (clock : ℚ)
    (result : RunResult) (nextRun : ℕ) (jobs : List Job) (name : String)
    (job' : Job)
    (hadm : job.id ∉ running)
    (hfind : jobs.find? (fun j => j.name == name) = some job') :
    (run_job running job clock result nextRun).2 =
      [DbEvent.createRun (openRun job clock),
       DbEvent.executeCommand job.command,
       DbEvent.updateRun (finishedRun job clock result),
       DbEvent.updateNextRun job.id nextRun] ∧
    (openRun job clock).ended_at = none ∧
    spawnsAfterOpenCreate false (run_job running job clock result nextRun).2 = true ∧
    (trigger jobs running name result).map (fun p => spawnsAfterOpenCreate false p.2) =
      some false ∧
    (triggerRunRecord job' result).ended_at = some result.ended_at := by
  have htrace : (run_job running job clock result nextRun).2 =
      [DbEvent.createRun (openRun job clock),
       DbEvent.executeCommand job.command,
       DbEvent.updateRun (finishedRun job clock result),
       DbEvent.updateNextRun job.id nextRun] := by
    rw [run_job, tryAdmit]
    simp [hadm]
  refine ⟨htrace, rfl, ?_, ?_, rfl⟩
  · rw [htrace]
    simp [spawnsAfterOpenCreate, openRun]
  · rw [trigger, hfind]
    rfl

/-- Witness for C3 (amended) on the sample job. -/
theorem c3_open_run_before_spawn_witness :
    sampleJob.id ∉ (∅ : Finset ℕ) ∧
    [sampleJob].find? (fun j => j.name == "nightly-report") = some sampleJob ∧
    ((run_job ∅ sampleJob 0 sampleResult 120).2 =
        [DbEvent.createRun (openRun sampleJob 0),
         DbEvent.executeCommand sampleJob.command,
         DbEvent.updateRun (finishedRun sampleJob 0 sampleResult),
         DbEvent.updateNextRun sampleJob.id 120] ∧
      (openRun sampleJob 0).ended_at = none ∧
      spawnsAfterOpenCreate false (run_job ∅ sampleJob 0 sampleResult 120).2 = true ∧
      (trigger [sampleJob] ∅ "nightly-report" sampleResult).map
          (fun p => spawnsAfterOpenCreate false p.2) = some false ∧
      (triggerRunRecord sampleJob sampleResult).ended_at =
        some sampleResult.ended_at) :=
  ⟨by decide, by decide,
   c3_open_run_before_spawn ∅ sampleJob 0 sampleResult 120 [sampleJob]
     "nightly-report" sampleJob (by decide) (by decide)⟩

/-- Counterexample for C4: when the first poll cycle raises, the loop
terminates immediately — no job of the following cycle is ever
dispatched, and the loop ends by an escaping exception. -/
theorem c4_raise_terminates_counterexample :
    run_scheduler_loop [PollOutcome.raises, PollOutcome.ok [sampleJob]] =
      ([], true) := by
  decide

/-- C4 (amended): the scheduler loop has no per-poll-cycle exception
handler: it dispatches the jobs of the successful cycles before the first
raising cycle and terminates at that cycle (the escaping exception ends
the daemon after the shutdown block), rather than logging and continuing
with the next tick. -/
theorem c4_loop_stops_at_first_raise (cycles : List PollOutcome) :
    run_scheduler_loop cycles =
      (((cycles.takeWhile PollOutcome.isOk).map PollOutcome.jobs).flatten,
        cycles.any (fun c => !c.isOk)) := by
  induction cycles with
  | nil => rfl
  | cons c rest ih =>
      cases c with
      | ok js => simp [run_scheduler_loop, PollOutcome.isOk, PollOutcome.jobs, ih]
      | raises => simp [run_scheduler_loop, PollOutcome.isOk]

/-- Witness for C4 (amended) on a two-cycle script. -/
theorem c4_loop_stops_at_first_raise_witness :
    run_scheduler_loop [PollOutcome.ok [sampleJob], PollOutcome.raises] =
      ((([PollOutcome.ok [sampleJob],
          PollOutcome.raises].takeWhile PollOutcome.isOk).map PollOutcome.jobs).flatten,
        [PollOutcome.ok [sampleJob], PollOutcome.raises].any (fun c => !c.isOk)) :=
  c4_loop_stops_at_first_raise [PollOutcome.ok [sampleJob], PollOutcome.raises]

/-- The wall-clock length of the post-kill output drain: the time the
follow-up `communicate` took, or the full 5-second grace period when it
timed out as well. -/
def drainTime (k : KillTiming) : ℚ :=
  match k.drained with
  | some (_, _, dt) => dt
  | none => 5

/-- C6: when the process would run longer than the timeout, the executor
reports `timed_out = true` and a null exit code, the recorded duration is
the wall-clock elapsed time `ended_at - started_at`, and it is at least
`timeout_seconds`. -/
theorem c6_timeout_result (timeout clock runtime : ℚ) (code : ℤ)
    (out err : String) (kill : KillTiming)
    (hterm : 0 ≤ kill.termWait)
    (hdrain : 0 ≤ drainTime kill)
    (hrun : timeout < runtime) :
    (execute_job timeout clock (ProcBehavior.runs runtime code out err) kill).timed_out
        = true ∧
    (execute_job timeout clock (ProcBehavior.runs runtime code out err) kill).exit_code
        = none ∧
    (execute_job timeout clock (ProcBehavior.runs runtime code out err) kill).duration_seconds
        = (execute_job timeout clock (ProcBehavior.runs runtime code out err) kill).ended_at
          - (execute_job timeout clock (ProcBehavior.runs runtime code out err) kill).started_at ∧
    timeout ≤
      (execute_job timeout clock (ProcBehavior.runs runtime code out err) kill).duration_seconds := by
  have hnle : ¬ runtime ≤ timeout := not_le.mpr hrun
  rcases hk : kill.drained with _ | ⟨o, e, dt⟩
  · have hdt : drainTime kill = 5 := by rw [drainTime, hk]
    refine ⟨?_, ?_, ?_, ?_⟩ <;>
      simp [execute_job, hnle, hk] <;> linarith [hterm]
  · have hdt : drainTime kill = dt := by rw [drainTime, hk]
    rw [hdt] at hdrain
    refine ⟨?_, ?_, ?_, ?_⟩ <;>
      simp [execute_job, hnle, hk] <;> linarith [hterm, hdrain]

/-- Witness for C6: a 10-second process under a 1-second timeout, with the
drain communicate also timing out. -/
theorem c6_timeout_result_witness :
    (0 : ℚ) ≤ (⟨0, none⟩ : KillTiming).termWait ∧
    (0 : ℚ) ≤ drainTime ⟨0, none⟩ ∧ (1 : ℚ) < 10 ∧
    ((execute_job 1 0 (ProcBehavior.runs 10 0 "" "") ⟨0, none⟩).timed_out = true ∧
      (execute_job 1 0 (ProcBehavior.runs 10 0 "" "") ⟨0, none⟩).exit_code = none ∧
      (execute_job 1 0 (ProcBehavior.runs 10 0 "" "") ⟨0, none⟩).duration_seconds
          = (execute_job 1 0 (ProcBehavior.runs 10 0 "" "") ⟨0, none⟩).ended_at
            - (execute_job 1 0 (ProcBehavior.runs 10 0 "" "") ⟨0, none⟩).started_at ∧
      (1 : ℚ) ≤ (execute_job 1 0 (ProcBehavior.runs 10 0 "" "") ⟨0, none⟩).duration_seconds) :=
  ⟨le_refl 0, by norm_num [drainTime], by norm_num,
   c6_timeout_result 1 0 10 0 "" "" ⟨0, none⟩ (le_refl 0)
     (by norm_num [drainTime]) (by norm_num)⟩

/-- C7: `get_due_jobs` returns exactly the rows satisfying
`enabled AND next_run IS NOT NULL AND next_run <= now` — disabled jobs
and jobs with null `next_run` are never returned — ordered by `next_run`
ascending. -/
theorem c7_get_due_jobs_spec (table : List Job) (now : ℕ) :
    (∀ j : Job, j ∈ get_due_jobs table now ↔
        j ∈ table ∧ j.enabled = true ∧ ∃ t, j.next_run = some t ∧ t ≤ now) ∧
    (get_due_jobs table now).Sorted dueLe ∧
    (get_due_jobs table now).Perm (table.filter (isDue now)) := by
  refine ⟨?_, List.sorted_insertionSort dueLe _, List.perm_insertionSort dueLe _⟩
  intro j
  rw [get_due_jobs, (List.perm_insertionSort dueLe _).mem_iff, List.mem_filter]
  constructor
  · rintro ⟨hmem, hdue⟩
    rw [isDue] at hdue
    cases hnr : j.next_run with
    | none => rw [hnr] at hdue; simp at hdue
    | some t =>
        rw [hnr] at hdue
        simp at hdue
        exact ⟨hmem, hdue.1, t, rfl, hdue.2⟩
  · rintro ⟨hmem, hen, t, hnr, hle⟩
    refine ⟨hmem, ?_⟩
    rw [isDue, hnr]
    simp [hen, hle]

/-- Witness for C7 on a two-row table: the enabled due job is selected,
the disabled one is not. -/
theorem c7_get_due_jobs_spec_witness :
    (sampleJob ∈ get_due_jobs [disabledJob, sampleJob] 100 ↔
      sampleJob ∈ [disabledJob, sampleJob] ∧ sampleJob.enabled = true ∧
        ∃ t, sampleJob.next_run = some t ∧ t ≤ 100) ∧
    (disabledJob ∈ get_due_jobs [disabledJob, sampleJob] 100 ↔
      disabledJob ∈ [disabledJob, sampleJob] ∧ disabledJob.enabled = true ∧
        ∃ t, disabledJob.next_run = some t ∧ t ≤ 100) :=
  ⟨(c7_get_due_jobs_spec [disabledJob, sampleJob] 100).1 sampleJob,
   (c7_get_due_jobs_spec [disabledJob, sampleJob] 100).1 disabledJob⟩

/-- C8: admission is an atomic check-and-insert — a second admission of
the same id without an intervening release fails and leaves the running
set unchanged — and releasing an absent id is a no-op. -/
theorem c8_guard_admission (s : Finset ℕ) (jobId : ℕ) (h : jobId ∉ s) :
    (tryAdmit s jobId).1 = true ∧
    (tryAdmit (tryAdmit s jobId).2 jobId).1 = false ∧
    (tryAdmit (tryAdmit s jobId).2 jobId).2 = (tryAdmit s jobId).2 ∧
    release s jobId = s := by
  rw [tryAdmit, if_neg h]
  refine ⟨rfl, ?_, ?_, Finset.erase_eq_of_not_mem h⟩ <;>
    rw [tryAdmit, if_pos (Finset.mem_insert_self jobId s)]

/-- Witness for C8: admitting id 1 into the empty set. -/
theorem c8_guard_admission_witness :
    (1 : ℕ) ∉ (∅ : Finset ℕ) ∧
    ((tryAdmit ∅ 1).1 = true ∧
      (tryAdmit (tryAdmit ∅ 1).2 1).1 = false ∧
      (tryAdmit (tryAdmit ∅ 1).2 1).2 = (tryAdmit ∅ 1).2 ∧
      release ∅ 1 = ∅) :=
  ⟨by decide, c8_guard_admission ∅ 1 (by decide)⟩

/-- C10: the CLI trigger neither reads nor writes the running-jobs set:
the returned set is exactly the input set whenever the job exists, and the
emitted trace — including the direct execution — is the same for every
content of the set, in particular when the id of the job is currently
admitted. -/
theorem c10_trigger_ignores_running_set (jobs : List Job)
    (running running' : Finset ℕ) (name : String) (result : RunResult) :
    (trigger jobs running name result).map Prod.fst =
      (jobs.find? (fun j => j.name == name)).map (fun _ => running) ∧
    (trigger jobs running name result).map Prod.snd =
      (trigger jobs running' name result).map Prod.snd := by
  rw [trigger, trigger]
  cases jobs.find? (fun j => j.name == name) <;> simp

/-- Witness for C10: triggering while the id of the job is in the running
set (set `{1}` versus the empty set). -/
theorem c10_trigger_ignores_running_set_witness :
    (trigger [sampleJob] {1} "nightly-report" sampleResult).map Prod.fst =
      ([sampleJob].find? (fun j => j.name == "nightly-report")).map
        (fun _ => ({1} : Finset ℕ)) ∧
    (trigger [sampleJob] {1} "nightly-report" sampleResult).map Prod.snd =
      (trigger [sampleJob] ∅ "nightly-report" sampleResult).map Prod.snd :=
  c10_trigger_ignores_running_set [sampleJob] {1} ∅ "nightly-report" sampleResult

end CCDirector
